import Mathlib

/-!
Verification of the Job Orchestration and Progress-Broadcast subsystem of the
Rustify repository (web-backend handlers, state, websocket; core batch
processor).  Rust structures are shallowly embedded: the task registry is a
map from id strings to task records, the async runner bodies become explicit
state-passing functions, f64/f32 progress values become integers (every
progress constant written by the embedded code paths is a small integer,
exactly representable in the source floats), and the fallible handler
endpoints return Option/Except values.
-/

namespace Rustify

/-- Embeds `TaskStatus` (web-backend/src/state.rs lines 9-17), the enum
carried by broadcast progress events. -/
inductive TaskStatus where
  | Pending
  | Extracting
  | Converting
  | Completed
  | Failed (msg : String)
  | Cancelled
  deriving DecidableEq, Repr

/-- Embeds `TaskUpdate` (web-backend/src/state.rs lines 19-26), the event
published on the broadcast channel. -/
structure TaskUpdate where
  task_id : String
  status : TaskStatus
  progress : ℤ
  speed : String
  eta : String
  deriving DecidableEq, Repr

/-- Embeds `TaskResponse`, the per-task record stored in the registry map.
The repository carries two evolutions of this struct: state.rs lines 37-49
(with `title`, without `playlist_files`) and the variant that handlers.rs
reads and writes (with `playlist_files` and no `title`).  This embedding
takes the union of the fields so that both the state.rs registry operations
and the handlers.rs runner writes can be expressed over one record; the
timestamp is an abstract natural number. -/
structure TaskResponse where
  id : String
  url : String
  title : String
  format : String
  quality : String
  status : String
  progress : ℤ
  created_at : ℕ
  output_path : Option String
  file_path : Option String
  playlist_files : Option (List String)
  deriving DecidableEq, Repr

/-- The registry: the `HashMap<String, TaskResponse>` behind
`AppState.tasks`, embedded as a function from ids to optional records. -/
def TaskMap : Type := String → Option TaskResponse

/-- Pointwise insertion into the registry map (`tasks.insert` /
assignment through `tasks.get_mut`). -/
def setTask (m : TaskMap) (id : String) (t : TaskResponse) : TaskMap :=
  fun k => if k = id then some t else m k

/-- Convenience constructor for concrete test tasks; field values other
than the status and progress are fixed throughout. -/
def mkTask (s : String) (p : ℤ) : TaskResponse :=
  ⟨"t1", "https://example", "title", "mp3", "best", s, p, 0, none, none, none⟩

/-- A one-entry registry holding `mkTask s p` under id "t1". -/
def oneTaskMap (s : String) (p : ℤ) : TaskMap :=
  fun k => if k = "t1" then some (mkTask s p) else none

/-- Prefix test on character lists, helper for the string predicates. -/
def prefixChars : List Char → List Char → Bool
  | [], _ => true
  | _ :: _, [] => false
  | a :: as, b :: bs => a == b && prefixChars as bs

/-- Embeds Rust `str::starts_with(pre)`. -/
def startsWithStr (s pre : String) : Bool :=
  prefixChars pre.data s.data

/-- Substring occurrence on character lists, helper for `containsSub`. -/
def containsSubAux (pat : List Char) : List Char → Bool
  | [] => pat.isEmpty
  | c :: cs => prefixChars pat (c :: cs) || containsSubAux pat cs

/-- Substring test: embeds Rust `str::contains(pat)` used by the partial
failure checks. -/
def containsSub (s pat : String) : Bool :=
  containsSubAux pat.data s.data

/-- The status strings that realise the four terminal states of the spec
state machine: Completed is stored as "completed", PartiallyCompleted as
"completed_with_errors: …", Failed as "failed: …", Cancelled as
"cancelled" (status strings written in handlers.rs). -/
def isTerminalStatus (s : String) : Bool :=
  s = "completed" || s = "cancelled" ||
    startsWithStr s "failed" || startsWithStr s "completed_with_errors"

/-- Embeds `cancel_task` (web-backend/src/handlers.rs lines 560-577): if the
id is present, set its status to "cancelled" and answer success (`Ok`,
embedded as `true`); otherwise leave the map alone and answer not-found
(`Err` 404, embedded as `false`). -/
def cancel_task (m : TaskMap) (id : String) : TaskMap × Bool :=
  match m id with
  | some t => (setTask m id { t with status := "cancelled" }, true)
  | none => (m, false)

/-- Embeds the runner write at handlers.rs lines 222-228: on wake-up the
spawned conversion task sets status "processing" and progress 10. -/
def processingWrite (m : TaskMap) (id : String) : TaskMap :=
  match m id with
  | some t => setTask m id { t with status := "processing", progress := 10 }
  | none => m

/-- Embeds the runner completion write at handlers.rs lines 277-284: status
"completed", progress 100, file path recorded. -/
def completedWrite (m : TaskMap) (id : String) (fp : String) : TaskMap :=
  match m id with
  | some t =>
      setTask m id
        { t with status := "completed", progress := 100, file_path := some fp }
  | none => m

/-- Embeds the runner failure write at handlers.rs lines 300-306: status
"failed: e", progress reset to 0. -/
def failedWrite (m : TaskMap) (id : String) (e : String) : TaskMap :=
  match m id with
  | some t =>
      setTask m id { t with status := "failed: " ++ e, progress := 0 }
  | none => m

/-- Embeds the body of the task spawned by `start_conversion` (handlers.rs
lines 213-318), abstracting the download call into its outcome: the write
to "processing" always happens first, the download is always invoked
(counted by the second component), and its outcome decides the terminal
write.  No cancellation flag is consulted anywhere in the source body. -/
def start_conversion_run (m : TaskMap) (id : String)
    (outcome : Except String String) : TaskMap × ℕ :=
  let m1 := processingWrite m id
  match outcome with
  | .ok fp => (completedWrite m1 id fp, 1)
  | .error e => (failedWrite m1 id e, 1)

theorem setTask_self (m : TaskMap) (id : String) (t : TaskResponse) :
    setTask m id t id = some t := by
  simp [setTask]

/-- C1 counterexample: a job whose status is the terminal "completed" is
mutated by a cancellation request: `cancel_task` rewrites its status to
"cancelled", so mutation of a terminal job's status is not a no-op. -/
theorem terminal_status_mutated_by_cancel :
    isTerminalStatus (mkTask "completed" 100).status = true ∧
      (cancel_task (oneTaskMap "completed" 100) "t1").1 "t1" =
        some { mkTask "completed" 100 with status := "cancelled" } ∧
      ({ mkTask "completed" 100 with status := "cancelled" } : TaskResponse) ≠
        mkTask "completed" 100 := by
  refine ⟨rfl, ?_, by decide⟩
  simp [cancel_task, oneTaskMap, mkTask, setTask]

/-- C1 amended: no write in the source guards on the current status.
Whenever the id is present, `cancel_task` overwrites the status with
"cancelled", the completion write overwrites it with "completed" and the
failure write with "failed: e" — each regardless of the status held, in
particular also when that status is terminal. -/
theorem status_writes_are_unguarded (m : TaskMap) (id : String)
    (t : TaskResponse) (h : m id = some t) :
    (cancel_task m id).1 id = some { t with status := "cancelled" } ∧
      (∀ fp, completedWrite m id fp id =
        some { t with status := "completed", progress := 100,
                      file_path := some fp }) ∧
      (∀ e, failedWrite m id e id =
        some { t with status := "failed: " ++ e, progress := 0 }) := by
  refine ⟨?_, fun fp => ?_, fun e => ?_⟩ <;>
    simp [cancel_task, completedWrite, failedWrite, h, setTask]

/-- C1 witness: the unguarded-write theorem applied to the one-task registry
whose job already holds the terminal status "cancelled". -/
theorem status_writes_are_unguarded_witness :
    (cancel_task (oneTaskMap "cancelled" 0) "t1").1 "t1" =
      some { mkTask "cancelled" 0 with status := "cancelled" } ∧
      (∀ fp, completedWrite (oneTaskMap "cancelled" 0) "t1" fp "t1" =
        some { mkTask "cancelled" 0 with
                 status := "completed", progress := 100,
                 file_path := some fp }) ∧
      (∀ e, failedWrite (oneTaskMap "cancelled" 0) "t1" e "t1" =
        some { mkTask "cancelled" 0 with
                 status := "failed: " ++ e, progress := 0 }) :=
  status_writes_are_unguarded (oneTaskMap "cancelled" 0) "t1"
    (mkTask "cancelled" 0) rfl

/-- C5 counterexample: `cancel_task` on a job that is already terminal
("completed") answers success, not the `false` the claim requires for a
job already in a terminal state. -/
theorem cancel_on_terminal_returns_success :
    isTerminalStatus (mkTask "completed" 100).status = true ∧
      (cancel_task (oneTaskMap "completed" 100) "t1").2 = true := by
  exact ⟨rfl, by simp [cancel_task, oneTaskMap]⟩

/-- C5 amended: `cancel_task` answers success exactly when the id exists,
terminal or not, and a second call on the same id returns the identical
answer and leaves the map produced by the first call unchanged: the two
calls differ from one call only in that the second also answers success
rather than the claimed `false`. -/
theorem cancel_task_existence_and_idempotence (m : TaskMap) (id : String) :
    (cancel_task m id).2 = (m id).isSome ∧
      (cancel_task (cancel_task m id).1 id).1 = (cancel_task m id).1 ∧
      (cancel_task (cancel_task m id).1 id).2 = (m id).isSome := by
  cases h : m id with
  | none =>
      refine ⟨by simp [cancel_task, h], ?_, ?_⟩ <;> simp [cancel_task, h]
  | some t =>
      refine ⟨by simp [cancel_task, h],
        ?_, by simp [cancel_task, h, setTask_self]⟩
      simp only [cancel_task, h, setTask_self]
      funext k
      by_cases hk : k = id <;> simp [setTask, hk]

/-- C4 counterexample: cancelling a job while it is still "pending" does not
prevent execution: the spawned runner body still invokes the download
(invocation count 1, not the claimed 0) and overwrites the status, so the
job ends "completed" rather than "cancelled". -/
theorem cancel_of_pending_job_is_overridden :
    ((start_conversion_run
        (cancel_task (oneTaskMap "pending" 0) "t1").1 "t1"
        (.ok "song.mp3")).1 "t1").map TaskResponse.status =
      some "completed" ∧
    (start_conversion_run
        (cancel_task (oneTaskMap "pending" 0) "t1").1 "t1"
        (.ok "song.mp3")).2 = 1 :=
  ⟨rfl, rfl⟩

/-- C4 amended: there is no cancel flag in the source at all; the runner
body spawned by `start_conversion` never consults the cancellation state.
After a cancellation request on any existing job the runner still performs
exactly one download invocation and overwrites the status with the
download's own terminal status ("completed" on success, "failed: e" on
error). -/
theorem runner_ignores_cancellation (m : TaskMap) (id : String)
    (t : TaskResponse) (h : m id = some t) :
    (∀ fp, (start_conversion_run (cancel_task m id).1 id (.ok fp)).2 = 1 ∧
      (start_conversion_run (cancel_task m id).1 id (.ok fp)).1 id =
        some { t with status := "completed", progress := 100,
                      file_path := some fp }) ∧
    (∀ e, (start_conversion_run (cancel_task m id).1 id (.error e)).2 = 1 ∧
      (start_conversion_run (cancel_task m id).1 id (.error e)).1 id =
        some { t with status := "failed: " ++ e, progress := 0 }) := by
  constructor
  · intro fp
    refine ⟨rfl, ?_⟩
    simp [start_conversion_run, processingWrite, completedWrite,
      cancel_task, h, setTask_self]
  · intro e
    refine ⟨rfl, ?_⟩
    simp [start_conversion_run, processingWrite, failedWrite,
      cancel_task, h, setTask_self]

/-- C4 witness: the runner-ignores-cancellation theorem applied to the
one-task registry holding a pending job. -/
theorem runner_ignores_cancellation_witness :
    (∀ fp,
      (start_conversion_run
        (cancel_task (oneTaskMap "pending" 0) "t1").1 "t1" (.ok fp)).2 = 1 ∧
      (start_conversion_run
          (cancel_task (oneTaskMap "pending" 0) "t1").1 "t1" (.ok fp)).1
          "t1" =
        some { mkTask "pending" 0 with
                 status := "completed", progress := 100,
                 file_path := some fp }) ∧
    (∀ e,
      (start_conversion_run
        (cancel_task (oneTaskMap "pending" 0) "t1").1 "t1"
        (.error e)).2 = 1 ∧
      (start_conversion_run
          (cancel_task (oneTaskMap "pending" 0) "t1").1 "t1" (.error e)).1
          "t1" =
        some { mkTask "pending" 0 with
                 status := "failed: " ++ e, progress := 0 }) :=
  runner_ignores_cancellation (oneTaskMap "pending" 0) "t1"
    (mkTask "pending" 0) rfl

/-- The fixed candidate list tried by the escalation loop
(web-backend/src/youtube.rs lines 65-71). -/
def possible_commands : List String :=
  ["yt-dlp", "yt-dlp.exe", "python -m yt_dlp", "python3 -m yt_dlp",
   "py -m yt_dlp"]

/-- Embeds `find_yt_dlp_executable` (youtube.rs lines 63-82), instrumented
with the list of candidates actually tested, in order.  The loop returns
the first candidate for which `test_command` succeeds; when every candidate
fails it falls back to the plain default "yt-dlp" — it does not return an
error and records no failure reasons. -/
def find_yt_dlp_trace (test_command : String → Bool) :
    List String → List String × String
  | [] => ([], "yt-dlp")
  | c :: cs =>
    if test_command c then ([c], c)
    else
      let r := find_yt_dlp_trace test_command cs
      (c :: r.1, r.2)

/-- The escalation result itself (youtube.rs 63-82), forgetting the trace. -/
def find_yt_dlp_executable (test_command : String → Bool) : String :=
  (find_yt_dlp_trace test_command possible_commands).2

/-- C2 counterexample: with every strategy failing, the escalation loop
returns the plain fallback "yt-dlp" after testing all five candidates — no
AggregatedError and no recorded reasons exist — and a failed download
surfaces in the job as the single message "failed: boom" rather than a
list of three reasons. -/
theorem all_strategies_fail_yields_default_not_error :
    find_yt_dlp_trace (fun _ => false) possible_commands =
      (possible_commands, "yt-dlp") ∧
    ((start_conversion_run (oneTaskMap "pending" 0) "t1"
        (.error "boom")).1 "t1").map TaskResponse.status =
      some "failed: boom" :=
  ⟨rfl, rfl⟩

/-- C2 amended: the escalation loop tries the fixed candidates in priority
order; the first success short-circuits (nothing after it is tested) and
an all-fail run returns the whole candidate list as its trace together
with the fallback "yt-dlp" instead of an aggregated error. -/
theorem strategy_escalation_behaviour (test_command : String → Bool) :
    (∀ c cs, test_command c = true →
      find_yt_dlp_trace test_command (c :: cs) = ([c], c)) ∧
    (∀ l, (∀ c ∈ l, test_command c = false) →
      find_yt_dlp_trace test_command l = (l, "yt-dlp")) ∧
    ((∀ c ∈ possible_commands, test_command c = false) →
      find_yt_dlp_executable test_command = "yt-dlp") := by
  have hall : ∀ l, (∀ c ∈ l, test_command c = false) →
      find_yt_dlp_trace test_command l = (l, "yt-dlp") := by
    intro l
    induction l with
    | nil => intro _; rfl
    | cons c cs ih =>
        intro hl
        have hc : test_command c = false := hl c (List.mem_cons_self c cs)
        have hcs := ih (fun x hx => hl x (List.mem_cons_of_mem c hx))
        simp [find_yt_dlp_trace, hc, hcs]
  refine ⟨fun c cs hc => by simp [find_yt_dlp_trace, hc], hall, fun h => ?_⟩
  simp [find_yt_dlp_executable, hall possible_commands h]

/-- C2 witness: short-circuit on the second candidate with the later ones
untested, and the all-fail fallback on the full candidate list. -/
theorem strategy_escalation_behaviour_witness :
    find_yt_dlp_trace (fun c => c == "yt-dlp.exe")
        ("yt-dlp.exe" :: ["python -m yt_dlp"]) =
      (["yt-dlp.exe"], "yt-dlp.exe") ∧
    find_yt_dlp_trace (fun _ => false) ["yt-dlp", "yt-dlp.exe"] =
      (["yt-dlp", "yt-dlp.exe"], "yt-dlp") ∧
    find_yt_dlp_executable (fun _ => false) = "yt-dlp" :=
  ⟨(strategy_escalation_behaviour (fun c => c == "yt-dlp.exe")).1
      "yt-dlp.exe" ["python -m yt_dlp"] (by decide),
   (strategy_escalation_behaviour (fun _ => false)).2.1
      ["yt-dlp", "yt-dlp.exe"] (by intro c _; rfl),
   (strategy_escalation_behaviour (fun _ => false)).2.2
      (by intro c _; rfl)⟩

/-- Lexicographic comparison on code points, the order used by Rust's
`Vec<String>::sort()` (byte order coincides with code-point order for
UTF-8). -/
def leChars : List Char → List Char → Bool
  | [], _ => true
  | _ :: _, [] => false
  | a :: as, b :: bs =>
    if a.toNat < b.toNat then true
    else if b.toNat < a.toNat then false
    else leChars as bs

/-- Ordered insertion for `sortStrings`. -/
def insertString (a : String) : List String → List String
  | [] => [a]
  | b :: l => if leChars a.data b.data then a :: b :: l else b :: insertString a l

/-- Embeds `downloaded_files.sort()` (youtube.rs line 611). -/
def sortStrings : List String → List String
  | [] => []
  | b :: l => insertString b (sortStrings l)

/-- Embeds the tail of `YouTubeDownloader::download_playlist` (youtube.rs
lines 574-615), abstracting the yt-dlp subprocess into its observable
results: the exit status, the stdout text, the stderr text and the list of
media files found in the output directory afterwards.  A failing exit
status is forgiven when stdout shows download activity; otherwise it is an
error.  An empty file list is an error; otherwise the sorted file list is
returned. -/
def download_playlist (exitSuccess : Bool) (stdout stderr dir : String)
    (files : List String) : Except String (List String) :=
  if ¬exitSuccess ∧
      ¬(containsSub stdout "has already been downloaded" ||
        containsSub stdout "[download] Downloading") then
    .error ("Playlist download failed.\nStderr: " ++ stderr ++
      "\nStdout: " ++ stdout)
  else if files.isEmpty then
    .error ("No files downloaded for playlist in directory: " ++ dir)
  else
    .ok (sortStrings files)

/-- The partial-failure test of `convert_playlist` (handlers.rs lines
487-489): an error message counts as a partial failure when it mentions
"some errors" or "partial". -/
def is_partial_failure (e : String) : Bool :=
  containsSub e "some errors" || containsSub e "partial"

/-- Embeds the terminal registry write of the task spawned by
`convert_playlist` (handlers.rs lines 445-508): on Ok the job becomes
"completed" at progress 100 with the files recorded; on a partial-failure
error it becomes "completed_with_errors: e" at progress 75; on any other
error it becomes "failed: e" at progress 0. -/
def convert_playlist_finish (dir : String)
    (res : Except String (List String)) (t : TaskResponse) : TaskResponse :=
  match res with
  | .ok files =>
      { t with status := "completed", progress := 100,
               file_path := files.head?,
               playlist_files := if files.length > 1 then some files else none,
               output_path := some dir }
  | .error e =>
      if is_partial_failure e then
        { t with status := "completed_with_errors: " ++ e, progress := 75,
                 output_path := some dir }
      else
        { t with status := "failed: " ++ e, progress := 0 }

/-- Embeds the terminal broadcast of `convert_playlist` (handlers.rs lines
473-527): completion and partial failure both broadcast status
`Completed`; only a full failure broadcasts `Failed`. -/
def convert_playlist_finish_event (id : String)
    (res : Except String (List String)) : TaskUpdate :=
  match res with
  | .ok files =>
      { task_id := id, status := .Completed, progress := 100,
        speed :=
          if files.length > 0 then
            "Successfully downloaded " ++ toString files.length ++ " files"
          else "Playlist processed, check output directory",
        eta := "Completed" }
  | .error e =>
      if is_partial_failure e then
        { task_id := id, status := .Completed, progress := 75,
          speed := "Completed with some errors - check output folder",
          eta := "Check results" }
      else
        { task_id := id, status := .Failed e, progress := 0,
          speed := "Failed: " ++ e, eta := "Failed" }

/-- C3 counterexample: five playlist members with outcomes [S,S,F,S,F].
yt-dlp exits non-zero but stdout shows download activity and three files
exist, so `download_playlist` returns Ok with the three files and the
parent job is stored as "completed" at progress 100 — not the
PartiallyCompleted terminal status the claim requires for a mixed outcome
(the code's partially-completed status string is
"completed_with_errors: …", which is not produced on this path). -/
theorem mixed_outcomes_yield_completed :
    download_playlist false "[download] Downloading item 1 of 5"
        "ERROR: Video unavailable" "downloads/playlist_t1"
        ["01 - a.m4a", "02 - b.m4a", "04 - d.m4a"] =
      .ok ["01 - a.m4a", "02 - b.m4a", "04 - d.m4a"] ∧
    (convert_playlist_finish "downloads/playlist_t1"
        (.ok ["01 - a.m4a", "02 - b.m4a", "04 - d.m4a"])
        (mkTask "processing" 95)).status = "completed" ∧
    (convert_playlist_finish "downloads/playlist_t1"
        (.ok ["01 - a.m4a", "02 - b.m4a", "04 - d.m4a"])
        (mkTask "processing" 95)).progress = 100 ∧
    (convert_playlist_finish "downloads/playlist_t1"
        (.ok ["01 - a.m4a", "02 - b.m4a", "04 - d.m4a"])
        (mkTask "processing" 95)).playlist_files =
      some ["01 - a.m4a", "02 - b.m4a", "04 - d.m4a"] := by
  refine ⟨?_, rfl, rfl, rfl⟩
  rfl

/-- C3 amended: the parent status of a playlist job is never computed from
per-member outcomes (no SubTask records exist).  Any Ok result — including
one produced by a mixed success/failure run — stores "completed" at
progress 100 with the returned files as outputs; an error whose message
mentions "some errors" or "partial" stores "completed_with_errors: e" at
progress 75; any other error stores "failed: e" at progress 0. -/
theorem playlist_aggregation_behaviour (dir : String) (t : TaskResponse)
    (files : List String) (e1 e2 : String)
    (hp : is_partial_failure e1 = true)
    (hn : is_partial_failure e2 = false) :
    (convert_playlist_finish dir (.ok files) t).status = "completed" ∧
    (convert_playlist_finish dir (.ok files) t).progress = 100 ∧
    (convert_playlist_finish dir (.ok files) t).playlist_files =
      (if files.length > 1 then some files else none) ∧
    (convert_playlist_finish dir (.error e1) t).status =
      "completed_with_errors: " ++ e1 ∧
    (convert_playlist_finish dir (.error e1) t).progress = 75 ∧
    (convert_playlist_finish dir (.error e2) t).status = "failed: " ++ e2 ∧
    (convert_playlist_finish dir (.error e2) t).progress = 0 := by
  refine ⟨rfl, rfl, rfl, ?_, ?_, ?_, ?_⟩ <;>
    simp [convert_playlist_finish, hp, hn]

/-- C3 witness: the aggregation theorem applied at a partial-failure and a
full-failure message. -/
theorem playlist_aggregation_behaviour_witness :
    (convert_playlist_finish "d" (.ok ["a", "b"])
      (mkTask "processing" 95)).status = "completed" ∧
    (convert_playlist_finish "d" (.error "finished with some errors")
        (mkTask "processing" 95)).status =
      "completed_with_errors: finished with some errors" ∧
    (convert_playlist_finish "d" (.error "network down")
        (mkTask "processing" 95)).status = "failed: network down" :=
  ⟨(playlist_aggregation_behaviour "d" (mkTask "processing" 95) ["a", "b"]
      "finished with some errors" "network down" (by decide) (by decide)).1,
   (playlist_aggregation_behaviour "d" (mkTask "processing" 95) ["a", "b"]
      "finished with some errors" "network down"
      (by decide) (by decide)).2.2.2.1,
   (playlist_aggregation_behaviour "d" (mkTask "processing" 95) ["a", "b"]
      "finished with some errors" "network down"
      (by decide) (by decide)).2.2.2.2.2.1⟩

/-- Embeds the status-string-to-enum mapping of the websocket snapshot
(web-backend/src/websocket.rs lines 31-38): this is the code's own notion
of which broadcast status corresponds to which stored status string. -/
def statusOfString (s : String) : TaskStatus :=
  if s = "pending" then .Pending
  else if s = "converting" then .Converting
  else if s = "completed" then .Completed
  else if s = "cancelled" then .Cancelled
  else if startsWithStr s "failed" then .Failed s
  else .Pending

/-- The synthetic progress value of iteration `it` of the playlist
progress loop (handlers.rs lines 395-400). -/
def playlist_sim_progress (it : ℕ) : ℤ :=
  if 1 ≤ it ∧ it ≤ 3 then 10 + (it : ℤ) * 5
  else if 4 ≤ it ∧ it ≤ 10 then 25 + (it : ℤ) * 3
  else if 11 ≤ it ∧ it ≤ 20 then 55 + (it : ℤ) * 2
  else min (75 + (it : ℤ)) 95

/-- The progress message of iteration `it` (handlers.rs lines 415-421). -/
def playlist_sim_speed (it : ℕ) : String :=
  if 1 ≤ it ∧ it ≤ 3 then "Fetching playlist information..."
  else if 4 ≤ it ∧ it ≤ 8 then "Downloading videos from playlist..."
  else if 9 ≤ it ∧ it ≤ 15 then "Processing downloaded files..."
  else if 16 ≤ it ∧ it ≤ 20 then "Organizing playlist contents..."
  else "Finalizing download..."

/-- The eta estimate of iteration `it` (handlers.rs lines 423-427). -/
def playlist_sim_eta (it : ℕ) : String :=
  if 1 ≤ it ∧ it ≤ 5 then toString ((45 : ℤ) - 2 * (it : ℤ)) ++ "s remaining"
  else if 6 ≤ it ∧ it ≤ 15 then toString ((35 : ℤ) - (it : ℤ)) ++ "s remaining"
  else "Almost done"

/-- The broadcast of iteration `it` of the playlist progress loop
(handlers.rs lines 429-435): always status `Converting`. -/
def playlist_sim_event (id : String) (it : ℕ) : TaskUpdate :=
  { task_id := id, status := .Converting,
    progress := playlist_sim_progress it,
    speed := playlist_sim_speed it, eta := playlist_sim_eta it }

/-- The initial broadcast of `convert_playlist` (handlers.rs lines
374-380). -/
def convert_playlist_initial_event (id : String) : TaskUpdate :=
  { task_id := id, status := .Converting, progress := 5,
    speed := "Analyzing playlist...", eta := "Calculating..." }

/-- All events a `convert_playlist` execution publishes on the bus: the
initial `Converting` event, the `simN` progress-loop events that ran
before the loop stopped, and the terminal broadcast (handlers.rs lines
354-530). -/
def convert_playlist_events (id : String) (simN : ℕ)
    (res : Except String (List String)) : List TaskUpdate :=
  convert_playlist_initial_event id ::
    ((List.range simN).map (fun k => playlist_sim_event id (k + 1)) ++
      [convert_playlist_finish_event id res])

/-- The sequence of status strings the stored playlist job holds over one
execution: "pending" at creation (line 335), "processing" once the runner
wakes (line 367; the progress loop changes only the progress field), and
the terminal status written by the finish update. -/
def convert_playlist_status_history (dir : String) (t : TaskResponse)
    (res : Except String (List String)) : List String :=
  ["pending", "processing", (convert_playlist_finish dir res t).status]

/-- C7 counterexample: on the partial-failure path the bus carries an event
of status `Completed` while the stored job only ever holds "pending",
"processing" and "completed_with_errors: …" — under the code's own
string-to-enum mapping, none of these is `Completed`, so the event
describes a status the job never actually held. -/
theorem event_status_never_held :
    convert_playlist_finish_event "t1"
        (.error "finished with some errors") ∈
      convert_playlist_events "t1" 0 (.error "finished with some errors") ∧
    (convert_playlist_finish_event "t1"
        (.error "finished with some errors")).status = .Completed ∧
    ∀ s ∈ convert_playlist_status_history "downloads/playlist_t1"
        (mkTask "pending" 0) (.error "finished with some errors"),
      statusOfString s ≠ .Completed := by
  refine ⟨by decide, by decide, by decide⟩

/-- C7 amended: the terminal broadcast agrees with the terminal registry
status on the success path (`Completed` against "completed") and on the
full-failure path (`Failed e` against "failed: e"), but on the
partial-failure path the bus broadcasts `Completed` while the registry
stores "completed_with_errors: e", which is a different string from
"completed" — so an event can describe a status the job never held. -/
theorem playlist_terminal_event_vs_registry (dir id : String)
    (t : TaskResponse) (res : Except String (List String)) :
    (∀ files, res = .ok files →
      (convert_playlist_finish_event id res).status = .Completed ∧
      (convert_playlist_finish dir res t).status = "completed") ∧
    (∀ e, res = .error e → is_partial_failure e = false →
      (convert_playlist_finish_event id res).status = .Failed e ∧
      (convert_playlist_finish dir res t).status = "failed: " ++ e) ∧
    (∀ e, res = .error e → is_partial_failure e = true →
      (convert_playlist_finish_event id res).status = .Completed ∧
      (convert_playlist_finish dir res t).status =
        "completed_with_errors: " ++ e ∧
      (convert_playlist_finish dir res t).status ≠ "completed") := by
  refine ⟨fun files hres => ?_, fun e hres hn => ?_, fun e hres hp => ?_⟩
  · subst hres; exact ⟨rfl, rfl⟩
  · subst hres
    exact ⟨by simp [convert_playlist_finish_event, hn],
      by simp [convert_playlist_finish, hn]⟩
  · subst hres
    refine ⟨by simp [convert_playlist_finish_event, hp],
      by simp [convert_playlist_finish, hp], ?_⟩
    simp only [convert_playlist_finish, hp, if_true]
    intro h
    have h2 := congrArg String.length h
    rw [String.length_append] at h2
    rw [show ("completed_with_errors: ".length) = 23 from rfl,
      show ("completed".length) = 9 from rfl] at h2
    omega

/-- C7 witness: the terminal-event theorem applied at a success result, a
plain failure and a partial failure. -/
theorem playlist_terminal_event_vs_registry_witness :
    ((convert_playlist_finish_event "t1" (.ok ["a.m4a"])).status =
        .Completed ∧
      (convert_playlist_finish "d" (.ok ["a.m4a"])
        (mkTask "processing" 95)).status = "completed") ∧
    ((convert_playlist_finish_event "t1" (.error "network down")).status =
        .Failed "network down" ∧
      (convert_playlist_finish "d" (.error "network down")
        (mkTask "processing" 95)).status = "failed: network down") ∧
    ((convert_playlist_finish_event "t1"
        (.error "partial download")).status = .Completed ∧
      (convert_playlist_finish "d" (.error "partial download")
          (mkTask "processing" 95)).status =
        "completed_with_errors: partial download" ∧
      (convert_playlist_finish "d" (.error "partial download")
        (mkTask "processing" 95)).status ≠ "completed") :=
  ⟨(playlist_terminal_event_vs_registry "d" "t1" (mkTask "processing" 95)
      (.ok ["a.m4a"])).1 ["a.m4a"] rfl,
   (playlist_terminal_event_vs_registry "d" "t1" (mkTask "processing" 95)
      (.error "network down")).2.1 "network down" rfl (by decide),
   (playlist_terminal_event_vs_registry "d" "t1" (mkTask "processing" 95)
      (.error "partial download")).2.2 "partial download" rfl (by decide)⟩

/-- Embeds `AppState::update_task` (state.rs lines 76-98): when the id is
present the updater is applied, one `TaskUpdate` is broadcast (with the
hardcoded `Pending` status, "0x" speed and "Unknown" eta of the source)
and the post-mutation snapshot is returned; when the id is absent nothing
is stored, nothing is broadcast and the result is `none`.  The middle
component collects the events published by the call. -/
def update_task (m : TaskMap) (task_id : String)
    (updater : TaskResponse → TaskResponse) :
    TaskMap × List TaskUpdate × Option TaskResponse :=
  match m task_id with
  | some t =>
      let t2 := updater t
      (setTask m task_id t2,
       [{ task_id := t2.id, status := .Pending, progress := t2.progress,
          speed := "0x", eta := "Unknown" }],
       some t2)
  | none => (m, [], none)

/-- Embeds `AppState::get_task` (state.rs lines 100-104). -/
def get_task (m : TaskMap) (task_id : String) : Option TaskResponse :=
  m task_id

/-- Embeds the `get_task` handler (handlers.rs lines 543-557): an unknown
id is reported as a not-found error, not retried. -/
def get_task_handler (m : TaskMap) (id : String) :
    Except String TaskResponse :=
  match m id with
  | some t => .ok t
  | none => .error "Task not found"

/-- C8: `get` and `mutate` on an unknown id are no-ops: the stored map is
returned unchanged, no event is published, and the result is absent
(`none` from the registry operations, a not-found error from the
handler). -/
theorem unknown_id_is_noop (m : TaskMap) (id : String)
    (f : TaskResponse → TaskResponse) (h : m id = none) :
    update_task m id f = (m, [], none) ∧
    get_task m id = none ∧
    get_task_handler m id = .error "Task not found" := by
  refine ⟨?_, h, ?_⟩ <;> simp [update_task, get_task_handler, h]

/-- C8 witness: the no-op theorem applied to the empty registry. -/
theorem unknown_id_is_noop_witness :
    update_task (fun _ => none) "nope" (fun t => t) =
      ((fun _ => none), [], none) ∧
    get_task (fun _ => none) "nope" = none ∧
    get_task_handler (fun _ => none) "nope" = .error "Task not found" :=
  unknown_id_is_noop (fun _ => none) "nope" (fun t => t) rfl

/-- The synthetic progress value of iteration `i` of the single-video
progress loop (handlers.rs line 247). -/
def single_sim_progress (i : ℕ) : ℤ :=
  10 + (i : ℤ) * 10

/-- Embeds the progress-simulation loop spawned by `start_conversion`
(handlers.rs lines 244-268), run against an oracle `obs` giving the status
the loop observes for the task at each wake-up (`none` when the id is
absent from the map at that instant).  The result lists the progress
writes performed, tagged with their iteration.  The loop runs at most 8
iterations; it breaks at the first observation of a non-"processing"
status; an absent id performs no write but — unlike the playlist loop —
does not break. -/
def simulate_progress_single_go (obs : ℕ → Option String) :
    ℕ → ℕ → List (ℕ × ℤ)
  | 0, _ => []
  | fuel + 1, i =>
    match obs i with
    | some s =>
        if s = "processing" then
          (i, single_sim_progress i) ::
            simulate_progress_single_go obs fuel (i + 1)
        else []
    | none => simulate_progress_single_go obs fuel (i + 1)

/-- The single-video progress loop: 8 iterations starting at 1. -/
def simulate_progress_single (obs : ℕ → Option String) : List (ℕ × ℤ) :=
  simulate_progress_single_go obs 8 1

/-- Embeds the progress-tracking loop spawned by `convert_playlist`
(handlers.rs lines 386-442) against the same kind of observation oracle.
This loop breaks on a non-"processing" status, breaks when the id is
absent, and breaks after the write once the computed progress reaches 95.
Since `playlist_sim_progress 20 = 95` the loop never runs past iteration
20, so fuel 21 covers every possible run. -/
def simulate_progress_playlist_go (obs : ℕ → Option String) :
    ℕ → ℕ → List (ℕ × ℤ)
  | 0, _ => []
  | fuel + 1, i =>
    match obs i with
    | none => []
    | some s =>
        if s = "processing" then
          (i, playlist_sim_progress i) ::
            (if 95 ≤ playlist_sim_progress i then []
             else simulate_progress_playlist_go obs fuel (i + 1))
        else []

/-- The playlist progress loop: starts at iteration 1. -/
def simulate_progress_playlist (obs : ℕ → Option String) : List (ℕ × ℤ) :=
  simulate_progress_playlist_go obs 21 1

theorem simulate_progress_single_go_mem (obs : ℕ → Option String) :
    ∀ fuel i0 i p, (i, p) ∈ simulate_progress_single_go obs fuel i0 →
      i0 ≤ i ∧ obs i = some "processing" ∧
        ∀ j s, i0 ≤ j → j ≤ i → obs j = some s → s = "processing" := by
  intro fuel
  induction fuel with
  | zero => intro i0 i p hmem; simp [simulate_progress_single_go] at hmem
  | succ fuel ih =>
      intro i0 i p hmem
      rw [simulate_progress_single_go] at hmem
      split at hmem
      next s0 hobs =>
        split at hmem
        next hs =>
          subst hs
          rcases List.mem_cons.mp hmem with hhead | htail
          · have hi : i = i0 := by
              have := congrArg Prod.fst hhead; simpa using this
            subst hi
            refine ⟨le_refl i, hobs, fun j s hj1 hj2 hjs => ?_⟩
            have hj : j = i := le_antisymm hj2 hj1
            rw [hj, hobs] at hjs
            exact (Option.some_inj.mp hjs).symm
          · obtain ⟨h1, h2, h3⟩ := ih (i0 + 1) i p htail
            refine ⟨by omega, h2, fun j s hj1 hj2 hjs => ?_⟩
            rcases Nat.eq_or_lt_of_le hj1 with hj | hj
            · rw [← hj, hobs] at hjs
              exact (Option.some_inj.mp hjs).symm
            · exact h3 j s (by omega) hj2 hjs
        next hs => simp at hmem
      next hobs =>
        obtain ⟨h1, h2, h3⟩ := ih (i0 + 1) i p hmem
        refine ⟨by omega, h2, fun j s hj1 hj2 hjs => ?_⟩
        rcases Nat.eq_or_lt_of_le hj1 with hj | hj
        · rw [← hj, hobs] at hjs; exact absurd hjs (by simp)
        · exact h3 j s (by omega) hj2 hjs

theorem simulate_progress_playlist_go_mem (obs : ℕ → Option String) :
    ∀ fuel i0 i p, (i, p) ∈ simulate_progress_playlist_go obs fuel i0 →
      i0 ≤ i ∧ obs i = some "processing" ∧
        ∀ j, i0 ≤ j → j ≤ i → obs j = some "processing" := by
  intro fuel
  induction fuel with
  | zero => intro i0 i p hmem; simp [simulate_progress_playlist_go] at hmem
  | succ fuel ih =>
      intro i0 i p hmem
      rw [simulate_progress_playlist_go] at hmem
      split at hmem
      next hobs => simp at hmem
      next s0 hobs =>
        split at hmem
        next hs =>
          subst hs
          rcases List.mem_cons.mp hmem with hhead | htail
          · have hi : i = i0 := by
              have := congrArg Prod.fst hhead; simpa using this
            subst hi
            refine ⟨le_refl i, hobs, fun j hj1 hj2 => ?_⟩
            have hj : j = i := le_antisymm hj2 hj1
            rw [hj, hobs]
          · split at htail
            next h95 => simp at htail
            next h95 =>
              obtain ⟨h1, h2, h3⟩ := ih (i0 + 1) i p htail
              refine ⟨by omega, h2, fun j hj1 hj2 => ?_⟩
              rcases Nat.eq_or_lt_of_le hj1 with hj | hj
              · rw [← hj, hobs]
              · exact h3 j (by omega) hj2
        next hs => simp at hmem

/-- C10 counterexample: the single-video progress loop does not stop
permanently when it observes the job missing.  With the job absent at
iteration 1 and present with status "processing" at iteration 2, the loop
still writes progress 30 at iteration 2 — it skipped the missing
observation instead of stopping. -/
theorem sim_loop_continues_after_missing :
    (fun i => if i = 2 then some "processing" else none : ℕ → Option String)
        1 = none ∧
    simulate_progress_single
        (fun i => if i = 2 then some "processing" else none) = [(2, 30)] :=
  ⟨rfl, by decide⟩

/-- C10 amended: both progress loops write only at iterations where the
observed status is exactly "processing", and both stop permanently at the
first non-"processing" status (so neither ever modifies the progress of a
job already marked completed, failed or cancelled); the playlist loop also
stops permanently when the job is missing, but the single-video loop
merely skips a missing observation without writing and continues. -/
theorem sim_loops_write_only_processing (obs : ℕ → Option String) :
    (∀ i p, (i, p) ∈ simulate_progress_single obs →
      obs i = some "processing" ∧
        ∀ j s, 1 ≤ j → j ≤ i → obs j = some s → s = "processing") ∧
    (∀ i p, (i, p) ∈ simulate_progress_playlist obs →
      obs i = some "processing" ∧
        ∀ j, 1 ≤ j → j ≤ i → obs j = some "processing") := by
  constructor
  · intro i p hmem
    obtain ⟨_, h2, h3⟩ :=
      simulate_progress_single_go_mem obs 8 1 i p hmem
    exact ⟨h2, h3⟩
  · intro i p hmem
    obtain ⟨_, h2, h3⟩ :=
      simulate_progress_playlist_go_mem obs 21 1 i p hmem
    exact ⟨h2, h3⟩

/-- C10 witness: the write-only-while-processing theorem applied to the
oracle that always observes "processing". -/
theorem sim_loops_write_only_processing_witness :
    (fun _ => some "processing" : ℕ → Option String) 3 =
        some "processing" ∧
    (fun _ => some "processing" : ℕ → Option String) 1 =
        some "processing" :=
  ⟨((sim_loops_write_only_processing (fun _ => some "processing")).1 3 40
      (by decide)).1,
   ((sim_loops_write_only_processing (fun _ => some "processing")).2 1 15
      (by decide)).1⟩

/-- Modelled from the spec: the Progress Bus implementation itself is not
part of this repository's sources — `AppState::new` (state.rs lines 51-67)
only creates a `tokio::sync::broadcast` channel of capacity 1000, and
`websocket_connection` (websocket.rs lines 78-96) only consumes it, so the
channel semantics are modelled from the spec's design note: a bounded ring
buffer per subscriber plus a monotonically increasing sequence counter,
with a `Lagged` marker computed from the gap between last-delivered and
current sequence number.  The bus state is the capacity plus the full log
of published events; each subscriber is just its next sequence number, so
subscribers hold no shared state. -/
structure Bus (α : Type) where
  cap : ℕ
  log : List α

/-- Modelled from the spec: what one `recv` yields — a real event or a
synthetic `Lagged n` marker counting the events dropped for this
subscriber. -/
inductive RecvItem (α : Type) where
  | item (e : α)
  | lagged (n : ℕ)
  deriving DecidableEq

/-- Modelled from the spec: publishing appends to the log; the operation
is total and does not inspect any subscriber state, so it can never block
or fail because of a slow subscriber. -/
def Bus.publish (b : Bus α) (e : α) : Bus α :=
  ⟨b.cap, b.log ++ [e]⟩

/-- Modelled from the spec: one receive step for the subscriber whose next
sequence number is `next`.  When nothing new was published the subscriber
would block (`none`); when the gap exceeds the capacity the oldest unread
events are dropped and a single `Lagged` marker carrying the number of
dropped events is delivered, advancing the subscriber to the oldest
retained event; otherwise the event at `next` is delivered. -/
def Bus.recv (b : Bus α) (next : ℕ) : Option (RecvItem α × ℕ) :=
  if h : next < b.log.length then
    if b.cap < b.log.length - next then
      some (.lagged (b.log.length - b.cap - next), b.log.length - b.cap)
    else
      some (.item (b.log.get ⟨next, h⟩), next + 1)
  else none

/-- Modelled from the spec: an actively-reading subscriber — one `recv`
immediately after each publish, starting at the current tip. -/
def Bus.activeRun (b : Bus α) : List α → List (RecvItem α)
  | [] => []
  | e :: es =>
      (match (b.publish e).recv b.log.length with
       | some (r, _) => [r]
       | none => []) ++ (b.publish e).activeRun es

theorem Bus.activeRun_items {α : Type} :
    ∀ (es : List α) (b : Bus α), 0 < b.cap →
      b.activeRun es = es.map RecvItem.item := by
  intro es
  induction es with
  | nil => intro b _; rfl
  | cons e es ih =>
      intro b hcap
      have h1 : b.log.length < ((b.publish e).log).length := by
        simp [Bus.publish]
      have hrecv : (b.publish e).recv b.log.length =
          some (.item e, b.log.length + 1) := by
        rw [Bus.recv, dif_pos h1]
        have hn : ¬ (b.publish e).cap <
            ((b.publish e).log).length - b.log.length := by
          simp [Bus.publish]
          omega
        rw [if_neg hn]
        simp [Bus.publish]
      rw [Bus.activeRun, hrecv, ih (b.publish e) hcap]
      rfl

/-- C6: the Progress Bus backpressure contract on the spec model.  For a
subscriber stalled at position `p` while the log has grown beyond `p`
plus the capacity: (1) its next receive is exactly one `Lagged` marker
counting precisely the dropped events (those that slid out of its
window), advancing it to the oldest retained event; (2) from there every
retained event is delivered normally, in order; (3) a second,
actively-reading subscriber receives every published event as an `item`
with no lag; (4) publish is total — it appends regardless of any
subscriber state, so it never blocks or fails because of a slow
subscriber. -/
theorem progress_bus_lag_and_delivery (b : Bus TaskUpdate) (p : ℕ)
    (hcap : 0 < b.cap) (hlag : p + b.cap < b.log.length) :
    b.recv p =
      some (.lagged (b.log.length - b.cap - p), b.log.length - b.cap) ∧
    (∀ q (hq : q < b.log.length), b.log.length - b.cap ≤ q →
      b.recv q = some (.item (b.log.get ⟨q, hq⟩), q + 1)) ∧
    (∀ es, b.activeRun es = es.map RecvItem.item) ∧
    (∀ e, (b.publish e).log = b.log ++ [e]) := by
  refine ⟨?_, fun q hq hge => ?_, fun es => Bus.activeRun_items es b hcap,
    fun e => rfl⟩
  · have h1 : p < b.log.length := by omega
    have h2 : b.cap < b.log.length - p := by omega
    rw [Bus.recv, dif_pos h1, if_pos h2]
  · have h2 : ¬ b.cap < b.log.length - q := by omega
    rw [Bus.recv, dif_pos hq, if_neg h2]

/-- C6 witness: a bus of capacity 2 holding 5 published events, with the
slow subscriber stalled at position 0: it receives one `Lagged 3` (3 = 5
published minus 2 retained), then the retained events in order, while an
active subscriber receives a further published event as a plain item. -/
theorem progress_bus_lag_and_delivery_witness :
    (Bus.mk 2 [⟨"t1", .Converting, 10, "a", "x"⟩,
        ⟨"t1", .Converting, 20, "b", "x"⟩, ⟨"t1", .Converting, 30, "c", "x"⟩,
        ⟨"t1", .Converting, 40, "d", "x"⟩, ⟨"t1", .Converting, 50, "e", "x"⟩]
        : Bus TaskUpdate).recv 0 = some (.lagged 3, 3) ∧
    (Bus.mk 2 [⟨"t1", .Converting, 10, "a", "x"⟩,
        ⟨"t1", .Converting, 20, "b", "x"⟩, ⟨"t1", .Converting, 30, "c", "x"⟩,
        ⟨"t1", .Converting, 40, "d", "x"⟩, ⟨"t1", .Converting, 50, "e", "x"⟩]
        : Bus TaskUpdate).recv 3 =
      some (.item ⟨"t1", .Converting, 40, "d", "x"⟩, 4) ∧
    (Bus.mk 2 [⟨"t1", .Converting, 10, "a", "x"⟩,
        ⟨"t1", .Converting, 20, "b", "x"⟩, ⟨"t1", .Converting, 30, "c", "x"⟩,
        ⟨"t1", .Converting, 40, "d", "x"⟩, ⟨"t1", .Converting, 50, "e", "x"⟩]
        : Bus TaskUpdate).activeRun [⟨"t1", .Completed, 100, "f", "x"⟩] =
      [.item ⟨"t1", .Completed, 100, "f", "x"⟩] :=
  ⟨(progress_bus_lag_and_delivery _ 0 (by decide) (by decide)).1,
   (progress_bus_lag_and_delivery _ 0 (by decide) (by decide)).2.1 3
     (by decide) (by decide),
   (progress_bus_lag_and_delivery _ 0 (by decide) (by decide)).2.2.1
     [⟨"t1", .Completed, 100, "f", "x"⟩]⟩

/-- Embeds `OutputFormat` (core library), quality payloads elided — only
the constructor matters here. -/
inductive OutputFormat where
  | Mp3
  | Mp4
  | Flac
  | Aac
  | Ogg
  | WebM
  deriving DecidableEq, Repr

/-- Embeds `BatchOptions` (core/src/batch.rs lines 37-47), including the
`max_concurrent` worker-pool bound. -/
structure BatchOptions where
  max_concurrent : ℕ
  skip_existing : Bool
  create_subdirs : Bool
  add_index_prefix : Bool
  video_limit : Option ℕ
  start_index : ℕ
  download_thumbnails : Bool
  create_playlist_file : Bool
  deriving DecidableEq, Repr

/-- Embeds `BatchFormat` (batch.rs lines 29-34). -/
structure BatchFormat where
  format : OutputFormat
  quality : String
  enabled : Bool
  deriving DecidableEq, Repr

/-- Embeds `BatchJobStatus` (batch.rs lines 50-58). -/
inductive BatchJobStatus where
  | Created
  | Starting
  | Running
  | Completed
  | Failed (msg : String)
  | Cancelled
  deriving DecidableEq, Repr

/-- Embeds `BatchTaskStatus` (batch.rs lines 76-83). -/
inductive BatchTaskStatus where
  | Pending
  | Converting
  | Completed
  | Failed (msg : String)
  | Skipped
  deriving DecidableEq, Repr

/-- Embeds `TaskFormatStatus` (batch.rs lines 97-104). -/
inductive TaskFormatStatus where
  | Pending
  | Converting
  | Completed
  | Failed (msg : String)
  | Skipped
  deriving DecidableEq, Repr

/-- Embeds `BatchTaskFormat` (batch.rs lines 86-94). -/
structure BatchTaskFormat where
  format : OutputFormat
  quality : String
  output_path : String
  status : TaskFormatStatus
  progress : ℤ
  error : Option String
  deriving DecidableEq, Repr

/-- Embeds `BatchJob` (batch.rs lines 11-26); timestamps abstract. -/
structure BatchJob where
  id : String
  name : String
  playlist_url : String
  output_dir : String
  formats : List BatchFormat
  options : BatchOptions
  status : BatchJobStatus
  created_at : ℕ
  started_at : Option ℕ
  completed_at : Option ℕ
  total_videos : ℕ
  completed_videos : ℕ
  failed_videos : ℕ
  deriving DecidableEq, Repr

/-- Embeds `BatchTask` (batch.rs lines 61-73). -/
structure BatchTask where
  id : String
  job_id : String
  video_url : String
  video_title : String
  video_index : ℕ
  formats : List BatchTaskFormat
  status : BatchTaskStatus
  created_at : ℕ
  started_at : Option ℕ
  completed_at : Option ℕ
  deriving DecidableEq, Repr

/-- The `jobs` map of `BatchProcessor` (batch.rs line 120). -/
def JobMap : Type := String → Option BatchJob

/-- The `tasks` map of `BatchProcessor` (batch.rs line 121). -/
def TasksMap : Type := String → Option (List BatchTask)

/-- Pointwise insertion into the jobs map (`jobs.lock().unwrap().insert`). -/
def setJob (m : JobMap) (id : String) (j : BatchJob) : JobMap :=
  fun k => if k = id then some j else m k

/-- Embeds `BatchProcessor::start_batch` (batch.rs lines 216-249),
abstracting the two `chrono::Utc::now()` calls into the timestamps `now1`
and `now2` and the one-second sleep into nothing observable.  The body
performs two get-and-insert rounds on the jobs map — first marking the job
Running with `started_at`, then marking it Completed with `completed_at`
and `completed_videos := total_videos` — and touches neither the tasks map
nor `options.max_concurrent`; no task is ever dispatched. -/
def start_batch (jobs : JobMap) (tasks : TasksMap) (job_id : String)
    (now1 now2 : ℕ) : JobMap × TasksMap :=
  let jobs1 :=
    match jobs job_id with
    | some j =>
        setJob jobs job_id
          { j with status := .Running, started_at := some now1 }
    | none => jobs
  let jobs2 :=
    match jobs1 job_id with
    | some j =>
        setJob jobs1 job_id
          { j with status := .Completed, completed_at := some now2,
                   completed_videos := j.total_videos }
    | none => jobs1
  (jobs2, tasks)

/-- A concrete batch configuration with worker-pool bound 3. -/
def sampleOptions : BatchOptions :=
  ⟨3, false, false, false, none, 0, false, false⟩

/-- A concrete batch job over 5 playlist videos, not yet started. -/
def sampleBatchJob : BatchJob :=
  ⟨"j1", "batch", "https://playlist", "out", [], sampleOptions, .Created,
   0, none, none, 5, 0, 0⟩

/-- The pending sub-task for video `i` of the sample job. -/
def sampleBatchTask (i : ℕ) : BatchTask :=
  ⟨"task" ++ toString i, "j1", "https://video", "video", i, [], .Pending,
   0, none, none⟩

/-- A jobs map holding only the sample job. -/
def sampleJobs : JobMap :=
  fun k => if k = "j1" then some sampleBatchJob else none

/-- A tasks map holding the 5 pending sub-tasks of the sample job. -/
def sampleTasks : TasksMap :=
  fun k =>
    if k = "j1" then some ((List.range 5).map sampleBatchTask) else none

/-- C9: `start_batch` on a job with 5 pending SubTasks and concurrency
limit 3 marks the job Completed with `completed_videos = 5` while leaving
the tasks map identical and every SubTask still Pending and never started:
no worker pool exists and no SubTask is ever dispatched, contradicting the
claimed worker-pool execution (the bound C is satisfied only vacuously). -/
theorem start_batch_runs_no_subtasks :
    (start_batch sampleJobs sampleTasks "j1" 1 2).1 "j1" =
      some { sampleBatchJob with
               status := .Completed, started_at := some 1,
               completed_at := some 2, completed_videos := 5 } ∧
    (start_batch sampleJobs sampleTasks "j1" 1 2).2 = sampleTasks ∧
    ((List.range 5).map sampleBatchTask).all
      (fun t => t.status == BatchTaskStatus.Pending &&
        t.started_at == none) = true ∧
    sampleBatchJob.options.max_concurrent = 3 := by
  refine ⟨?_, rfl, by decide, rfl⟩
  simp [start_batch, sampleJobs, setJob, sampleBatchJob]

end Rustify
